import Mathlib

/-!
Shallow embedding of `src/backend/scripts/pdf_to_h5.py`, the PDF → H5
conversion pipeline.  Python floats are modelled by `ℚ`; the structured
text tree returned by `page.get_text("dict")` is modelled by the
`Block`/`Line`/`Span` structures; `pytesseract.image_to_data` rows are
modelled by `OcrFragment` (an unparseable confidence string is `none`).
-/

namespace PdfToH5

/-- The rectangle record produced by `bbox_to_dict` (source lines 15-21):
keys `x`, `y`, `w`, `h`. -/
structure Bbox where
  x : ℚ
  y : ℚ
  w : ℚ
  h : ℚ
deriving DecidableEq, Repr

/-- `bbox_to_dict(x0, y0, x1, y1)` from the source: width and height are
clamped at zero. -/
def bbox_to_dict (x0 y0 x1 y1 : ℚ) : Bbox :=
  { x := x0, y := y0, w := max 0 (x1 - x0), h := max 0 (y1 - y0) }

/-- One span of the `page.get_text("dict")` tree.  Every field is optional
because the code reads them with `span.get(...)`. -/
structure Span where
  text : Option String
  bbox : Option (List ℚ)
  size : Option ℚ
  font : Option String
deriving DecidableEq, Repr

/-- One line of a text block of the content tree. -/
structure Line where
  spans : List Span
deriving DecidableEq, Repr

/-- One block of the content tree: `type` 0 marks text, 1 marks image. -/
structure Block where
  type : Option Int
  lines : List Line
  bbox : Option (List ℚ)
deriving DecidableEq, Repr

/-- Row `j` of the `pytesseract.image_to_data` output.  `conf = none`
models a confidence string that `float()` fails to parse (the
`try`/`except` on source lines 278-281). -/
structure OcrFragment where
  conf : Option ℚ
  left : ℚ
  top : ℚ
  width : ℚ
  height : ℚ
deriving DecidableEq, Repr

/-- One page as the pipeline sees it: the PDF rect dimensions
(`page.rect.width/height`), the rendered pixmap dimensions
(`pix.width/height`), the content tree and the OCR rows obtained from the
rendered bitmap. -/
structure PageInput where
  rect_w : ℚ
  rect_h : ℚ
  pix_w : ℕ
  pix_h : ℕ
  blocks : List Block
  ocr : List OcrFragment
deriving DecidableEq, Repr

/-- Python `str.strip()` with no argument: remove whitespace from both
ends of the string. -/
def pyStrip (s : String) : String :=
  ((s.data.dropWhile Char.isWhitespace).reverse.dropWhile
    Char.isWhitespace).reverse.asString

/-- Python `span.get("bbox") or [0, 0, 0, 0]`: both `None` and the empty
list are falsy and replaced by the default. -/
def orDefaultBbox (b : Option (List ℚ)) : List ℚ :=
  match b with
  | none => [0, 0, 0, 0]
  | some l => if l = [] then [0, 0, 0, 0] else l

/-- An entry of `span_items_pdf` (source lines 245-252): the text-layer
record holding the raw PDF-user-space bbox. -/
structure TextSpanPdf where
  text : String
  x0 : ℚ
  y0 : ℚ
  x1 : ℚ
  y1 : ℚ
  size : ℚ
  font : String
deriving DecidableEq, Repr

/-- An entry of `span_items_render` (source lines 253-257): the manifest
item holding the scaled, normalized bbox. -/
structure ManifestItem where
  box : Bbox
  text : String
  size : ℚ
  font : String
deriving DecidableEq, Repr

/-- Body of the span loop (source lines 238-257): trim the text, discard
the span when the trimmed text is empty, default a falsy bbox to
`[0,0,0,0]`, skip the span when the bbox does not have exactly 4
components, otherwise emit both the PDF-space and the render-space
record. -/
def processSpan (sx sy : ℚ) (s : Span) : Option (TextSpanPdf × ManifestItem) :=
  let text := pyStrip (s.text.getD "")
  if text = "" then none
  else
    match orDefaultBbox s.bbox with
    | [x0, y0, x1, y1] =>
      some
        ({ text := text, x0 := x0, y0 := y0, x1 := x1, y1 := y1,
           size := s.size.getD 0, font := s.font.getD "" },
         { box := bbox_to_dict (x0 * sx) (y0 * sy) (x1 * sx) (y1 * sy),
           text := text, size := s.size.getD 0, font := s.font.getD "" })
    | _ => none

/-- The spans reached by the block → line → span walk of source lines
233-237; blocks whose `type` is not 0 are skipped by `continue`. -/
def pageSpans (blocks : List Block) : List Span :=
  blocks.flatMap fun b =>
    if b.type = some 0 then b.lines.flatMap (fun l => l.spans) else []

/-- Body of the image-block loop (source lines 261-268): only blocks of
`type` 1 with a present, exactly-4-component bbox contribute. -/
def processImageBlock (sx sy : ℚ) (b : Block) : Option Bbox :=
  if b.type = some 1 then
    match b.bbox with
    | some [x0, y0, x1, y1] =>
      some (bbox_to_dict (x0 * sx) (y0 * sy) (x1 * sx) (y1 * sy))
    | _ => none
  else none

/-- An entry of `ocr_boxes` (source line 290). -/
structure OcrBox where
  x : ℚ
  y : ℚ
  w : ℚ
  h : ℚ
  conf : ℚ
deriving DecidableEq, Repr

/-- Body of the OCR loop (source lines 276-291): an unparseable confidence
becomes `-1`; fragments with `conf < 0`, `width ≤ 1` or `height ≤ 1` are
dropped; survivors keep left/top/width/height unchanged. -/
def processOcrFragment (f : OcrFragment) : Option OcrBox :=
  let conf := f.conf.getD (-1)
  if conf < 0 then none
  else if f.width ≤ 1 ∨ f.height ≤ 1 then none
  else some { x := f.left, y := f.top, w := f.width, h := f.height, conf := conf }

/-- `sx = float(pix.width) / page_w if page_w else 1.0` (source line 227). -/
def scale_x (p : PageInput) : ℚ :=
  if p.rect_w ≠ 0 then (p.pix_w : ℚ) / p.rect_w else 1

/-- `sy = float(pix.height) / page_h if page_h else 1.0` (source line 228). -/
def scale_y (p : PageInput) : ℚ :=
  if p.rect_h ≠ 0 then (p.pix_h : ℚ) / p.rect_h else 1

/-- `f"assets/page_{page_no:03d}.png"`; the `.replace("\\\\", "/")` on
source line 298 is the identity on this string. -/
def imagePathFor (page_no : ℕ) : String :=
  "assets/page_"
    ++ (if page_no < 10 then "00" else if page_no < 100 then "0" else "")
    ++ toString page_no ++ ".png"

/-- The per-page manifest record appended on source lines 293-303. -/
structure PageRecord where
  pageNumber : ℕ
  renderWidth : ℕ
  renderHeight : ℕ
  imagePath : String
  items : List ManifestItem
  ocrBoxes : List OcrBox
  imageBoxes : List Bbox
deriving DecidableEq, Repr

/-- The per-page text-layer record appended on source line 304. -/
structure TextLayerPage where
  page : ℕ
  items : List TextSpanPdf
deriving DecidableEq, Repr

/-- The body of the page loop (source lines 218-304) for 1-based page
number `page_no`: builds the page's manifest record and its text-layer
record. -/
def processPage (page_no : ℕ) (p : PageInput) : PageRecord × TextLayerPage :=
  let sx := scale_x p
  let sy := scale_y p
  let spanPairs := (pageSpans p.blocks).filterMap (processSpan sx sy)
  ({ pageNumber := page_no
     renderWidth := p.pix_w
     renderHeight := p.pix_h
     imagePath := imagePathFor page_no
     items := spanPairs.map Prod.snd
     ocrBoxes := p.ocr.filterMap processOcrFragment
     imageBoxes := p.blocks.filterMap (processImageBlock sx sy) },
   { page := page_no, items := spanPairs.map Prod.fst })

/-- The top-level manifest (source line 308). -/
structure Manifest where
  sourceFile : String
  pageCount : ℕ
  pages : List PageRecord
deriving DecidableEq, Repr

/-- The dict returned by `run_pipeline` on source line 316. -/
structure RunReturn where
  ok : Bool
  pages : ℕ
  preview : String
deriving DecidableEq, Repr

/-- `run_pipeline` (source lines 204-316) restricted to its data flow: the
document is the list of its pages' inputs; the result is the manifest
(written to `manifest.json`), the text layer (written to
`text-layer.json`) and the returned dict. -/
def run_pipeline (original_name : String) (doc : List PageInput) :
    Manifest × List TextLayerPage × RunReturn :=
  let processed := doc.enum.map fun ip => processPage (ip.1 + 1) ip.2
  let pages := processed.map Prod.fst
  let text_layers := processed.map Prod.snd
  ({ sourceFile := original_name, pageCount := pages.length, pages := pages },
   text_layers,
   { ok := true, pages := pages.length, preview := "index.html" })

/-- What the invocation boundary prints: the success dict of source line
334 or the failure dict of source lines 336-341. -/
inductive Emitted where
  | success (r : RunReturn)
  | failure (ok : Bool) (error : String) (traceback : String)
deriving DecidableEq, Repr

/-- `main` (source lines 319-342) after argument parsing.  `Except.ok doc`
models `run_pipeline` returning normally on a document whose pages are
`doc`; `Except.error (msg, tb)` models it raising an exception with
message `msg` and formatted traceback `tb`.  The result is the printed
JSON payload paired with whether the process outcome is non-zero (the
bare `raise` re-raises after printing). -/
def mainModel (original_name : String)
    (outcome : Except (String × String) (List PageInput)) : Emitted × Bool :=
  match outcome with
  | .ok doc => (.success (run_pipeline original_name doc).2.2, false)
  | .error (msg, tb) => (.failure false msg tb, true)

/-! Concrete fixtures used by the witness and counterexample theorems. -/

/-- A concrete span: text ` hi `, bbox `[1, 2, 3, 5]`, size 12, font `F`. -/
def wSpan : Span :=
  { text := some " hi ", bbox := some [1, 2, 3, 5], size := some 12,
    font := some "F" }

/-- A concrete page: PDF rect 4 × 5, raster 8 × 10, one text block holding
`wSpan`, one image block, and three OCR fragments (one kept, one with an
unparseable confidence, one of width 1). -/
def wPage : PageInput :=
  { rect_w := 4, rect_h := 5, pix_w := 8, pix_h := 10,
    blocks :=
      [{ type := some 0, lines := [{ spans := [wSpan] }], bbox := none },
       { type := some 1, lines := [], bbox := some [0, 1, 2, 3] }],
    ocr := [⟨some 50, 3, 4, 5, 6⟩, ⟨none, 0, 0, 9, 9⟩, ⟨some 80, 1, 1, 1, 5⟩] }

/-- `wPage` rendered at a different zoom: only the raster dimensions
differ. -/
def wPageZoom : PageInput :=
  { wPage with pix_w := 16, pix_h := 20 }

/-- A degenerate page whose PDF rect is 0 × 0. -/
def wPageDeg : PageInput :=
  { rect_w := 0, rect_h := 0, pix_w := 7, pix_h := 9, blocks := [], ocr := [] }

/-- A span with non-empty text but no bbox key (`span.get("bbox")` is
`None`). -/
def spanNoBbox : Span :=
  { text := some "x", bbox := none, size := none, font := none }

/-- A page containing a single text block holding only `spanNoBbox`. -/
def pageNoBbox : PageInput :=
  { rect_w := 1, rect_h := 1, pix_w := 2, pix_h := 2,
    blocks :=
      [{ type := some 0, lines := [{ spans := [spanNoBbox] }], bbox := none }],
    ocr := [] }

/-- A span whose text is only whitespace. -/
def spanBlank : Span :=
  { text := some "   ", bbox := some [1, 2, 3, 4], size := none, font := none }

/-- The pair of records `processSpan 2 2 wSpan` emits. -/
def wSpanPair : TextSpanPdf × ManifestItem :=
  ({ text := "hi", x0 := 1, y0 := 2, x1 := 3, y1 := 5, size := 12, font := "F" },
   { box := bbox_to_dict (1 * 2) (2 * 2) (3 * 2) (5 * 2), text := "hi",
     size := 12, font := "F" })

/-! Helper lemmas. -/

/-- Anatomy of a successful `processSpan`: the emitted text is the
stripped raw text and is non-empty, both records carry it, the PDF-space
record carries the (defaulted) raw bbox components and the render-space
record carries the scaled, normalized box. -/
theorem processSpan_some_spec {sx sy : ℚ} {s : Span}
    {q : TextSpanPdf × ManifestItem} (h : processSpan sx sy s = some q) :
    q.1.text = pyStrip (s.text.getD "") ∧ q.1.text ≠ "" ∧
    q.2.text = q.1.text ∧
    orDefaultBbox s.bbox = [q.1.x0, q.1.y0, q.1.x1, q.1.y1] ∧
    q.1.size = s.size.getD 0 ∧ q.1.font = s.font.getD "" ∧
    q.2.size = s.size.getD 0 ∧ q.2.font = s.font.getD "" ∧
    q.2.box = bbox_to_dict (q.1.x0 * sx) (q.1.y0 * sy) (q.1.x1 * sx) (q.1.y1 * sy) := by
  simp only [processSpan] at h
  split at h
  · exact absurd h (by simp)
  · split at h
    next x0 y0 x1 y1 heq =>
      obtain rfl := Option.some.inj h
      exact ⟨rfl, by assumption, rfl, heq, rfl, rfl, rfl, rfl, rfl⟩
    next => exact absurd h (by simp)

/-- A span whose stripped text is empty is discarded. -/
theorem processSpan_none_of_strip_empty {s : Span}
    (h : pyStrip (s.text.getD "") = "") (sx sy : ℚ) :
    processSpan sx sy s = none := by
  simp [processSpan, h]

/-- The PDF-space half of `processSpan` does not depend on the scale
factors. -/
theorem processSpan_fst_indep (sx sy sx' sy' : ℚ) (s : Span) :
    (processSpan sx sy s).map Prod.fst = (processSpan sx' sy' s).map Prod.fst := by
  simp only [processSpan]
  split
  · rfl
  · split <;> rfl

/-- Anatomy of a successful `processImageBlock`: the block is image-typed,
its bbox is present with exactly 4 components, and the result is the
scaled, normalized box. -/
theorem processImageBlock_some_spec {sx sy : ℚ} {b : Block} {box : Bbox}
    (h : processImageBlock sx sy b = some box) :
    b.type = some 1 ∧ ∃ x0 y0 x1 y1, b.bbox = some [x0, y0, x1, y1] ∧
      box = bbox_to_dict (x0 * sx) (y0 * sy) (x1 * sx) (y1 * sy) := by
  simp only [processImageBlock] at h
  split at h
  · split at h
    next x0 y0 x1 y1 heq =>
      exact ⟨by assumption, x0, y0, x1, y1, heq, (Option.some.inj h).symm⟩
    next => exact absurd h (by simp)
  · exact absurd h (by simp)

/-- `processOcrFragment` drops a fragment exactly when its (defaulted)
confidence is negative or its width or height is at most 1. -/
theorem processOcrFragment_none_iff (f : OcrFragment) :
    processOcrFragment f = none ↔
      f.conf.getD (-1) < 0 ∨ f.width ≤ 1 ∨ f.height ≤ 1 := by
  simp only [processOcrFragment]
  split
  next hc => simp [hc]
  next hc =>
    split
    next hw => simp [hc, hw]
    next hw => simp [hc, hw]

/-- Anatomy of a surviving OCR fragment: the box carries the raw
left/top/width/height and the parsed confidence, which is non-negative,
and both width and height exceed 1. -/
theorem processOcrFragment_some_spec {f : OcrFragment} {b : OcrBox}
    (h : processOcrFragment f = some b) :
    b.x = f.left ∧ b.y = f.top ∧ b.w = f.width ∧ b.h = f.height ∧
    b.conf = f.conf.getD (-1) ∧ 0 ≤ b.conf ∧ 1 < b.w ∧ 1 < b.h := by
  simp only [processOcrFragment] at h
  split at h
  · exact absurd h (by simp)
  next hc =>
    split at h
    · exact absurd h (by simp)
    next hwh =>
      push_neg at hc hwh
      obtain rfl := Option.some.inj h
      exact ⟨rfl, rfl, rfl, rfl, rfl, hc, hwh.1, hwh.2⟩

/-- The manifest items are the render-space halves of the surviving
spans. -/
theorem processPage_items (n : ℕ) (p : PageInput) :
    (processPage n p).1.items =
      ((pageSpans p.blocks).filterMap
        (processSpan (scale_x p) (scale_y p))).map Prod.snd := rfl

/-- The text-layer items are the PDF-space halves of the surviving
spans. -/
theorem processPage_tl_items (n : ℕ) (p : PageInput) :
    (processPage n p).2.items =
      ((pageSpans p.blocks).filterMap
        (processSpan (scale_x p) (scale_y p))).map Prod.fst := rfl

/-- The OCR boxes of a page record. -/
theorem processPage_ocrBoxes (n : ℕ) (p : PageInput) :
    (processPage n p).1.ocrBoxes = p.ocr.filterMap processOcrFragment := rfl

/-- The image boxes of a page record. -/
theorem processPage_imageBoxes (n : ℕ) (p : PageInput) :
    (processPage n p).1.imageBoxes =
      p.blocks.filterMap (processImageBlock (scale_x p) (scale_y p)) := rfl

/-- The page number stored in a page record. -/
theorem processPage_pageNumber (n : ℕ) (p : PageInput) :
    (processPage n p).1.pageNumber = n := rfl

/-- Whole-list version of `processSpan_fst_indep`. -/
theorem filterMap_processSpan_map_fst (sx sy sx' sy' : ℚ) (l : List Span) :
    (l.filterMap (processSpan sx sy)).map Prod.fst =
      (l.filterMap (processSpan sx' sy')).map Prod.fst := by
  induction l with
  | nil => rfl
  | cons s t ih =>
    have h := processSpan_fst_indep sx sy sx' sy' s
    simp only [List.filterMap_cons]
    cases hs : processSpan sx sy s with
    | none =>
      cases hs' : processSpan sx' sy' s with
      | none => exact ih
      | some q => rw [hs, hs'] at h; simp at h
    | some q =>
      cases hs' : processSpan sx' sy' s with
      | none => rw [hs, hs'] at h; simp at h
      | some q' =>
        rw [hs, hs'] at h
        simp only [Option.map_some'] at h
        simp only [List.map_cons, ih, Option.some.inj h]

/-- The text-layer record depends only on the page number and the page's
content tree, not on the raster or rect dimensions. -/
theorem processPage_textLayer_eq {n : ℕ} {p q : PageInput}
    (hb : p.blocks = q.blocks) :
    (processPage n p).2 = (processPage n q).2 := by
  have h1 : (processPage n p).2 =
      ⟨n, ((pageSpans p.blocks).filterMap
        (processSpan (scale_x p) (scale_y p))).map Prod.fst⟩ := rfl
  have h2 : (processPage n q).2 =
      ⟨n, ((pageSpans q.blocks).filterMap
        (processSpan (scale_x q) (scale_y q))).map Prod.fst⟩ := rfl
  rw [h1, h2, hb, filterMap_processSpan_map_fst (scale_x p) (scale_y p)
    (scale_x q) (scale_y q)]

/-- The manifest holds one page record per document page. -/
theorem run_pipeline_pages_length (name : String) (doc : List PageInput) :
    (run_pipeline name doc).1.pages.length = doc.length := by
  simp [run_pipeline]

/-- The text layer holds one record per document page. -/
theorem run_pipeline_tl_length (name : String) (doc : List PageInput) :
    (run_pipeline name doc).2.1.length = doc.length := by
  simp [run_pipeline]

/-- Page record `k` of the manifest is the page loop body applied to input
page `k` with 1-based number `k + 1`. -/
theorem run_pipeline_pages_getElem (name : String) (doc : List PageInput)
    (k : ℕ) (hk : k < (run_pipeline name doc).1.pages.length)
    (hd : k < doc.length) :
    (run_pipeline name doc).1.pages[k] = (processPage (k + 1) doc[k]).1 := by
  simp [run_pipeline, List.getElem_map, List.getElem_enum]

/-- Text-layer record `k` is the page loop body applied to input page `k`
with 1-based number `k + 1`. -/
theorem run_pipeline_tl_getElem (name : String) (doc : List PageInput)
    (k : ℕ) (hk : k < (run_pipeline name doc).2.1.length)
    (hd : k < doc.length) :
    (run_pipeline name doc).2.1[k] = (processPage (k + 1) doc[k]).2 := by
  simp [run_pipeline, List.getElem_map, List.getElem_enum]

/-- Claim C1: for every page and every emitted text span and image block,
the raster-space bbox stored in the manifest equals the PDF-space bbox
(x0, y0, x1, y1) scaled component-wise to (x0·sx, y0·sy, x1·sx, y1·sy) and
normalized, so the stored record is {x = x0·sx, y = y0·sy,
w = max 0 (x1·sx − x0·sx), h = max 0 (y1·sy − y0·sy)}; in particular w and
h are never negative. -/
theorem C1_raster_bbox_scale_normalize (page_no : ℕ) (p : PageInput) :
    ((processPage page_no p).1.items.length =
      (processPage page_no p).2.items.length) ∧
    (∀ k (hk : k < (processPage page_no p).1.items.length)
        (hk' : k < (processPage page_no p).2.items.length),
      ((processPage page_no p).1.items[k]).box =
        { x := ((processPage page_no p).2.items[k]).x0 * scale_x p
          y := ((processPage page_no p).2.items[k]).y0 * scale_y p
          w := max 0 (((processPage page_no p).2.items[k]).x1 * scale_x p -
            ((processPage page_no p).2.items[k]).x0 * scale_x p)
          h := max 0 (((processPage page_no p).2.items[k]).y1 * scale_y p -
            ((processPage page_no p).2.items[k]).y0 * scale_y p) }) ∧
    (∀ b ∈ (processPage page_no p).1.imageBoxes,
      ∃ blk ∈ p.blocks, ∃ x0 y0 x1 y1, blk.bbox = some [x0, y0, x1, y1] ∧
        b = { x := x0 * scale_x p, y := y0 * scale_y p,
              w := max 0 (x1 * scale_x p - x0 * scale_x p),
              h := max 0 (y1 * scale_y p - y0 * scale_y p) }) ∧
    (∀ mi ∈ (processPage page_no p).1.items, 0 ≤ mi.box.w ∧ 0 ≤ mi.box.h) ∧
    (∀ b ∈ (processPage page_no p).1.imageBoxes, 0 ≤ b.w ∧ 0 ≤ b.h) := by
  refine ⟨by rw [processPage_items, processPage_tl_items]; simp, ?_, ?_, ?_, ?_⟩
  · intro k hk hk'
    simp only [processPage_items, processPage_tl_items, List.length_map,
      List.getElem_map] at hk hk' ⊢
    obtain ⟨s, -, hsome⟩ := List.mem_filterMap.mp (List.getElem_mem hk)
    obtain ⟨-, -, -, -, -, -, -, -, hbox⟩ := processSpan_some_spec hsome
    simpa [bbox_to_dict] using hbox
  · intro b hb
    rw [processPage_imageBoxes] at hb
    obtain ⟨blk, hblk, hsome⟩ := List.mem_filterMap.mp hb
    obtain ⟨-, x0, y0, x1, y1, hbb, hbox⟩ := processImageBlock_some_spec hsome
    exact ⟨blk, hblk, x0, y0, x1, y1, hbb, by simpa [bbox_to_dict] using hbox⟩
  · intro mi hmi
    rw [processPage_items] at hmi
    obtain ⟨pr, hpr, rfl⟩ := List.mem_map.mp hmi
    obtain ⟨s, -, hsome⟩ := List.mem_filterMap.mp hpr
    obtain ⟨-, -, -, -, -, -, -, -, hbox⟩ := processSpan_some_spec hsome
    simp only [hbox, bbox_to_dict]
    exact ⟨le_max_left _ _, le_max_left _ _⟩
  · intro b hb
    rw [processPage_imageBoxes] at hb
    obtain ⟨blk, -, hsome⟩ := List.mem_filterMap.mp hb
    obtain ⟨-, x0, y0, x1, y1, -, hbox⟩ := processImageBlock_some_spec hsome
    simp only [hbox, bbox_to_dict]
    exact ⟨le_max_left _ _, le_max_left _ _⟩

/-- Concrete instance of `C1_raster_bbox_scale_normalize`: the first
manifest item of `wPage`. -/
theorem C1_witness :
    ((processPage 1 wPage).1.items.get ⟨0, by decide⟩).box =
      { x := ((processPage 1 wPage).2.items.get ⟨0, by decide⟩).x0 * scale_x wPage
        y := ((processPage 1 wPage).2.items.get ⟨0, by decide⟩).y0 * scale_y wPage
        w := max 0 (((processPage 1 wPage).2.items.get ⟨0, by decide⟩).x1 * scale_x wPage -
          ((processPage 1 wPage).2.items.get ⟨0, by decide⟩).x0 * scale_x wPage)
        h := max 0 (((processPage 1 wPage).2.items.get ⟨0, by decide⟩).y1 * scale_y wPage -
          ((processPage 1 wPage).2.items.get ⟨0, by decide⟩).y0 * scale_y wPage) } :=
  (C1_raster_bbox_scale_normalize 1 wPage).2.1 0 (by decide) (by decide)

/-- Claim C2: every surviving OCR fragment appears in `ocrBoxes` with x,
y, w, h exactly the engine's left, top, width, height and its parsed
confidence, with no scale factor and no Bbox normalization; the OCR boxes
do not depend on the page or raster geometry at all. -/
theorem C2_ocr_boxes_unscaled (page_no : ℕ) (p : PageInput) :
    (processPage page_no p).1.ocrBoxes = p.ocr.filterMap processOcrFragment ∧
    (∀ f b, processOcrFragment f = some b →
      b.x = f.left ∧ b.y = f.top ∧ b.w = f.width ∧ b.h = f.height ∧
        b.conf = f.conf.getD (-1)) ∧
    (∀ (q : PageInput) (m : ℕ), q.ocr = p.ocr →
      (processPage m q).1.ocrBoxes = (processPage page_no p).1.ocrBoxes) := by
  refine ⟨processPage_ocrBoxes _ _, ?_, ?_⟩
  · intro f b h
    obtain ⟨h1, h2, h3, h4, h5, -⟩ := processOcrFragment_some_spec h
    exact ⟨h1, h2, h3, h4, h5⟩
  · intro q m hq
    rw [processPage_ocrBoxes, processPage_ocrBoxes, hq]

/-- Concrete instance of `C2_ocr_boxes_unscaled`: the surviving fragment
of `wPage`, and the zoomed page `wPageZoom` producing the same OCR
boxes. -/
theorem C2_witness :
    ((⟨3, 4, 5, 6, 50⟩ : OcrBox).x = (⟨some 50, 3, 4, 5, 6⟩ : OcrFragment).left ∧
      (⟨3, 4, 5, 6, 50⟩ : OcrBox).y = (⟨some 50, 3, 4, 5, 6⟩ : OcrFragment).top ∧
      (⟨3, 4, 5, 6, 50⟩ : OcrBox).w = (⟨some 50, 3, 4, 5, 6⟩ : OcrFragment).width ∧
      (⟨3, 4, 5, 6, 50⟩ : OcrBox).h = (⟨some 50, 3, 4, 5, 6⟩ : OcrFragment).height ∧
      (⟨3, 4, 5, 6, 50⟩ : OcrBox).conf =
        (⟨some 50, 3, 4, 5, 6⟩ : OcrFragment).conf.getD (-1)) ∧
    (processPage 2 wPageZoom).1.ocrBoxes = (processPage 1 wPage).1.ocrBoxes :=
  ⟨(C2_ocr_boxes_unscaled 1 wPage).2.1 ⟨some 50, 3, 4, 5, 6⟩ ⟨3, 4, 5, 6, 50⟩
      (by decide),
   (C2_ocr_boxes_unscaled 1 wPage).2.2 wPageZoom 2 rfl⟩

/-- Claim C3: sx = Rw/W when W > 0 and sx = 1 when W = 0; sy = Rh/H when
H > 0 and sy = 1 when H = 0. -/
theorem C3_scale_factors (p : PageInput) :
    (0 < p.rect_w → scale_x p = (p.pix_w : ℚ) / p.rect_w) ∧
    (p.rect_w = 0 → scale_x p = 1) ∧
    (0 < p.rect_h → scale_y p = (p.pix_h : ℚ) / p.rect_h) ∧
    (p.rect_h = 0 → scale_y p = 1) :=
  ⟨fun h => by simp [scale_x, h.ne'], fun h => by simp [scale_x, h],
   fun h => by simp [scale_y, h.ne'], fun h => by simp [scale_y, h]⟩

/-- Concrete instance of `C3_scale_factors` at `wPage` (4 × 5 rect) and
at the degenerate page `wPageDeg` (0 × 0 rect). -/
theorem C3_witness :
    scale_x wPage = ((wPage.pix_w : ℚ)) / wPage.rect_w ∧
    scale_y wPage = ((wPage.pix_h : ℚ)) / wPage.rect_h ∧
    scale_x wPageDeg = 1 ∧ scale_y wPageDeg = 1 :=
  ⟨(C3_scale_factors wPage).1 (by decide),
   (C3_scale_factors wPage).2.2.1 (by decide),
   (C3_scale_factors wPageDeg).2.1 (by decide),
   (C3_scale_factors wPageDeg).2.2.2 (by decide)⟩

/-- Claim C4: confidence is parsed with a -1 fallback for unparseable
values; a fragment is discarded exactly when conf < 0 or width ≤ 1 or
height ≤ 1; every emitted OcrBox has conf ≥ 0, width > 1 and height > 1.
The filter is a total function — there is no error path. -/
theorem C4_ocr_filtering (page_no : ℕ) (p : PageInput) :
    (∀ f, processOcrFragment f = none ↔
      (f.conf.getD (-1) < 0 ∨ f.width ≤ 1 ∨ f.height ≤ 1)) ∧
    (∀ f b, processOcrFragment f = some b → b.conf = f.conf.getD (-1)) ∧
    (∀ b ∈ (processPage page_no p).1.ocrBoxes,
      0 ≤ b.conf ∧ 1 < b.w ∧ 1 < b.h) := by
  refine ⟨processOcrFragment_none_iff, ?_, ?_⟩
  · intro f b h
    exact (processOcrFragment_some_spec h).2.2.2.2.1
  · intro b hb
    rw [processPage_ocrBoxes] at hb
    obtain ⟨f, -, hsome⟩ := List.mem_filterMap.mp hb
    obtain ⟨-, -, -, -, -, h6, h7, h8⟩ := processOcrFragment_some_spec hsome
    exact ⟨h6, h7, h8⟩

/-- Concrete instance of `C4_ocr_filtering`: the surviving OCR box of
`wPage`. -/
theorem C4_witness :
    0 ≤ (⟨3, 4, 5, 6, 50⟩ : OcrBox).conf ∧
      1 < (⟨3, 4, 5, 6, 50⟩ : OcrBox).w ∧ 1 < (⟨3, 4, 5, 6, 50⟩ : OcrBox).h :=
  (C4_ocr_filtering 1 wPage).2.2 ⟨3, 4, 5, 6, 50⟩ (by decide)

/-- Claim C5: span text is stripped of surrounding whitespace first; a
span whose stripped text is empty contributes nothing to the manifest
items or the text layer, and every emitted record carries the non-empty
stripped text. -/
theorem C5_trim_nonempty (page_no : ℕ) (p : PageInput) :
    (∀ (sx sy : ℚ) (s : Span), pyStrip (s.text.getD "") = "" →
      processSpan sx sy s = none) ∧
    (∀ tsp ∈ (processPage page_no p).2.items,
      tsp.text ≠ "" ∧ ∃ s ∈ pageSpans p.blocks,
        tsp.text = pyStrip (s.text.getD "")) ∧
    (∀ mi ∈ (processPage page_no p).1.items,
      mi.text ≠ "" ∧ ∃ s ∈ pageSpans p.blocks,
        mi.text = pyStrip (s.text.getD "")) := by
  refine ⟨fun sx sy s h => processSpan_none_of_strip_empty h sx sy, ?_, ?_⟩
  · intro tsp htsp
    rw [processPage_tl_items] at htsp
    obtain ⟨pr, hpr, rfl⟩ := List.mem_map.mp htsp
    obtain ⟨s, hs, hsome⟩ := List.mem_filterMap.mp hpr
    obtain ⟨h1, h2, -⟩ := processSpan_some_spec hsome
    exact ⟨h2, s, hs, h1⟩
  · intro mi hmi
    rw [processPage_items] at hmi
    obtain ⟨pr, hpr, rfl⟩ := List.mem_map.mp hmi
    obtain ⟨s, hs, hsome⟩ := List.mem_filterMap.mp hpr
    obtain ⟨h1, h2, h3, -⟩ := processSpan_some_spec hsome
    exact ⟨by rw [h3]; exact h2, s, hs, h3.trans h1⟩

/-- Concrete instance of `C5_trim_nonempty`: the all-whitespace span
`spanBlank` is dropped, and the surviving span of `wPage` carries the
stripped text. -/
theorem C5_witness :
    processSpan 1 1 spanBlank = none ∧
    ((⟨"hi", 1, 2, 3, 5, 12, "F"⟩ : TextSpanPdf).text ≠ "" ∧
      ∃ s ∈ pageSpans wPage.blocks,
        (⟨"hi", 1, 2, 3, 5, 12, "F"⟩ : TextSpanPdf).text =
          pyStrip (s.text.getD "")) :=
  ⟨(C5_trim_nonempty 1 wPage).1 1 1 spanBlank (by decide),
   (C5_trim_nonempty 1 wPage).2.1 ⟨"hi", 1, 2, 3, 5, 12, "F"⟩ (by decide)⟩

/-- Claim C6 counterexample: `spanNoBbox` has a missing bbox — so its
bbox does not have exactly 4 components — yet the span is not skipped: it
contributes an entry to both the text layer and the manifest items of
`pageNoBbox`, because `span.get("bbox") or [0, 0, 0, 0]` substitutes a
4-component default before the length check. -/
theorem C6_counterexample :
    (processPage 1 pageNoBbox).2.items ≠ [] ∧
    (processPage 1 pageNoBbox).1.items ≠ [] := by decide

/-- Claim C6 (amended): a span whose bbox is present and non-empty but
does not have exactly 4 components is silently skipped and the remaining
spans are unaffected; a missing bbox is replaced by the default
[0, 0, 0, 0] and the span is kept; image blocks with a missing, empty or
non-4-component bbox are skipped. -/
theorem C6_amended (sx sy : ℚ) :
    (∀ (s : Span) (l : List ℚ), s.bbox = some l → l ≠ [] → l.length ≠ 4 →
      processSpan sx sy s = none) ∧
    (∀ s : Span, s.bbox = none → pyStrip (s.text.getD "") ≠ "" →
      ∃ q, processSpan sx sy s = some q ∧
        q.1.x0 = 0 ∧ q.1.y0 = 0 ∧ q.1.x1 = 0 ∧ q.1.y1 = 0) ∧
    (∀ (pre post : List Span) (s : Span), processSpan sx sy s = none →
      (pre ++ s :: post).filterMap (processSpan sx sy) =
        (pre ++ post).filterMap (processSpan sx sy)) ∧
    (∀ b : Block, b.bbox = none ∨ (∃ l, b.bbox = some l ∧ l.length ≠ 4) →
      processImageBlock sx sy b = none) := by
  refine ⟨?_, ?_, ?_, ?_⟩
  · intro s l hsome hne hlen
    have hl : orDefaultBbox s.bbox = l := by simp [orDefaultBbox, hsome, hne]
    rcases l with _ | ⟨a, _ | ⟨b, _ | ⟨c, _ | ⟨d, _ | ⟨e, l⟩⟩⟩⟩⟩
    · exact absurd rfl hne
    · simp [processSpan, hl]
    · simp [processSpan, hl]
    · simp [processSpan, hl]
    · simp at hlen
    · simp [processSpan, hl]
  · intro s hnone hne
    refine ⟨({ text := pyStrip (s.text.getD ""), x0 := 0, y0 := 0,
               x1 := 0, y1 := 0, size := s.size.getD 0,
               font := s.font.getD "" },
             { box := bbox_to_dict (0 * sx) (0 * sy) (0 * sx) (0 * sy),
               text := pyStrip (s.text.getD ""), size := s.size.getD 0,
               font := s.font.getD "" }), ?_, rfl, rfl, rfl, rfl⟩
    simp [processSpan, orDefaultBbox, hnone, hne]
  · intro pre post s h
    simp [List.filterMap_append, List.filterMap_cons, h]
  · intro b hb
    rcases hb with hb | ⟨l, hb, hlen⟩
    · simp [processImageBlock, hb]
    · rcases l with _ | ⟨a, _ | ⟨c, _ | ⟨d, _ | ⟨e, _ | ⟨g, l⟩⟩⟩⟩⟩
      · simp [processImageBlock, hb]
      · simp [processImageBlock, hb]
      · simp [processImageBlock, hb]
      · simp [processImageBlock, hb]
      · simp at hlen
      · simp [processImageBlock, hb]

/-- Concrete instance of `C6_amended`: a 3-component bbox skips the span;
an image block with a missing bbox is skipped. -/
theorem C6_amended_witness :
    processSpan 1 1 ⟨some "x", some [1, 2, 3], none, none⟩ = none ∧
    processImageBlock 1 1 ⟨some 1, [], none⟩ = none :=
  ⟨(C6_amended 1 1).1 ⟨some "x", some [1, 2, 3], none, none⟩ [1, 2, 3] rfl
      (by decide) (by decide),
   (C6_amended 1 1).2.2.2 ⟨some 1, [], none⟩ (Or.inl rfl)⟩

/-- Claim C7: per page the text layer has exactly as many spans as that
page's manifest items; each text-layer span carries the raw unscaled
PDF-user-space bbox; and two runs on the same extraction results that
differ only in the raster dimensions produce identical text layers. -/
theorem C7_text_layer_invariant (name : String) (doc : List PageInput) :
    (∀ k (hk : k < (run_pipeline name doc).2.1.length)
        (hk' : k < (run_pipeline name doc).1.pages.length),
      ((run_pipeline name doc).2.1[k]).items.length =
        ((run_pipeline name doc).1.pages[k]).items.length) ∧
    (∀ (sx sy : ℚ) (s : Span) (q : TextSpanPdf × ManifestItem),
      processSpan sx sy s = some q →
      orDefaultBbox s.bbox = [q.1.x0, q.1.y0, q.1.x1, q.1.y1]) ∧
    (∀ doc' : List PageInput, doc.length = doc'.length →
      (∀ k (h1 : k < doc.length) (h2 : k < doc'.length),
        doc[k].rect_w = doc'[k].rect_w ∧ doc[k].rect_h = doc'[k].rect_h ∧
        doc[k].blocks = doc'[k].blocks ∧ doc[k].ocr = doc'[k].ocr) →
      (run_pipeline name doc).2.1 = (run_pipeline name doc').2.1) := by
  refine ⟨?_, ?_, ?_⟩
  · intro k hk hk'
    have hd : k < doc.length := by rwa [run_pipeline_tl_length] at hk
    rw [run_pipeline_tl_getElem name doc k hk hd,
      run_pipeline_pages_getElem name doc k hk' hd,
      processPage_items, processPage_tl_items]
    simp
  · intro sx sy s q h
    exact (processSpan_some_spec h).2.2.2.1
  · intro doc' hlen hpt
    apply List.ext_getElem
    · rw [run_pipeline_tl_length, run_pipeline_tl_length, hlen]
    · intro i h1 h2
      have hd1 : i < doc.length := by rwa [run_pipeline_tl_length] at h1
      have hd2 : i < doc'.length := by rwa [run_pipeline_tl_length] at h2
      rw [run_pipeline_tl_getElem name doc i h1 hd1,
        run_pipeline_tl_getElem name doc' i h2 hd2]
      exact processPage_textLayer_eq (hpt i hd1 hd2).2.2.1

/-- Concrete instance of `C7_text_layer_invariant`: one page, matching
counts, the raw bbox of `wSpan`, and the same text layer at two zooms. -/
theorem C7_witness :
    (((run_pipeline "doc.pdf" [wPage]).2.1.get ⟨0, by decide⟩).items.length =
      ((run_pipeline "doc.pdf" [wPage]).1.pages.get ⟨0, by decide⟩).items.length) ∧
    orDefaultBbox wSpan.bbox =
      [wSpanPair.1.x0, wSpanPair.1.y0, wSpanPair.1.x1, wSpanPair.1.y1] ∧
    (run_pipeline "doc.pdf" [wPage]).2.1 =
      (run_pipeline "doc.pdf" [wPageZoom]).2.1 :=
  ⟨(C7_text_layer_invariant "doc.pdf" [wPage]).1 0 (by decide) (by decide),
   (C7_text_layer_invariant "doc.pdf" [wPage]).2.1 2 2 wSpan wSpanPair rfl,
   (C7_text_layer_invariant "doc.pdf" [wPage]).2.2 [wPageZoom] rfl
     (by intro k h1 h2
         obtain rfl : k = 0 := Nat.lt_one_iff.mp (by simpa using h1)
         exact ⟨rfl, rfl, rfl, rfl⟩)⟩

/-- Claim C8: pageCount equals the number of page records, which equals
the document's page count, and the page records appear in document order
with 1-based page numbers. -/
theorem C8_page_count (name : String) (doc : List PageInput) :
    (run_pipeline name doc).1.pageCount =
      (run_pipeline name doc).1.pages.length ∧
    (run_pipeline name doc).1.pages.length = doc.length ∧
    (∀ k (hk : k < (run_pipeline name doc).1.pages.length),
      ((run_pipeline name doc).1.pages[k]).pageNumber = k + 1) := by
  refine ⟨rfl, run_pipeline_pages_length name doc, ?_⟩
  intro k hk
  have hd : k < doc.length := by rwa [run_pipeline_pages_length] at hk
  rw [run_pipeline_pages_getElem name doc k hk hd, processPage_pageNumber]

/-- Concrete instance of `C8_page_count`: the second page of a two-page
document has page number 2. -/
theorem C8_witness :
    ((run_pipeline "doc.pdf" [wPage, wPageDeg]).1.pages.get
      ⟨1, by decide⟩).pageNumber = 2 :=
  (C8_page_count "doc.pdf" [wPage, wPageDeg]).2.2 1 (by decide)

/-- Claim C9: the pipeline's data flow is a pure function of the input
name and the engines' per-page results, so two runs on identical inputs
produce identical manifest and text-layer values (hence byte-identical
serializations). -/
theorem C9_deterministic (n1 n2 : String) (d1 d2 : List PageInput)
    (hn : n1 = n2) (hd : d1 = d2) :
    run_pipeline n1 d1 = run_pipeline n2 d2 := by rw [hn, hd]

/-- Concrete instance of `C9_deterministic` at `wPage`. -/
theorem C9_witness :
    run_pipeline "a.pdf" [wPage] = run_pipeline "a.pdf" [wPage] :=
  C9_deterministic "a.pdf" "a.pdf" [wPage] [wPage] rfl rfl

/-- Claim C10: on success the invocation boundary emits
{ok: true, pages: page count, preview: "index.html"} with a zero process
outcome; on failure it emits {ok: false, error, traceback} and signals a
non-zero process outcome. -/
theorem C10_invocation_boundary (name : String)
    (outcome : Except (String × String) (List PageInput)) :
    (∀ doc, outcome = .ok doc →
      mainModel name outcome =
        (.success { ok := true, pages := doc.length, preview := "index.html" },
         false)) ∧
    (∀ msg tb, outcome = .error (msg, tb) →
      mainModel name outcome = (.failure false msg tb, true)) := by
  refine ⟨?_, ?_⟩
  · rintro doc rfl
    simp [mainModel, run_pipeline]
  · rintro msg tb rfl
    rfl

/-- Concrete instance of `C10_invocation_boundary`: a successful one-page
run and a failing run. -/
theorem C10_witness :
    mainModel "a.pdf" (.ok [wPage]) =
      (.success { ok := true, pages := [wPage].length, preview := "index.html" },
       false) ∧
    mainModel "a.pdf" (.error ("boom", "tb")) =
      (.failure false "boom" "tb", true) :=
  ⟨(C10_invocation_boundary "a.pdf" (.ok [wPage])).1 [wPage] rfl,
   (C10_invocation_boundary "a.pdf" (.error ("boom", "tb"))).2 "boom" "tb" rfl⟩

end PdfToH5
